import Mathlib

/-!
Verification of the documentation slice of the `negmas` repository.

The slice consists of two tutorial documents:
  * `docs/tutorials/01.running_simple_negotiation.rst` — a reStructuredText
    export of a Jupyter notebook, embedded below verbatim as `rstLines`;
  * `docs/tutorials/notebooks/07.develop_scml_agent.ipynb` — a Jupyter
    notebook (an nbformat-4 JSON document), embedded below cell by cell as
    `nbCells`, keeping each cell's type, joined source and outputs verbatim.

All further definitions (code-fragment extraction, import/class-line
analysis, run-result dictionary parsing) are computed from these two
verbatim embeddings by the checker functions defined after them.
-/

/-- Is every character of the line a space (or the line empty)? -/
def isBlankL (l : List Char) : Bool := l.all (· == ' ')

/-- Leading-space count of a line. -/
def indentOf (l : List Char) : Nat := (l.takeWhile (· == ' ')).length

/-- The line with its leading spaces removed. -/
def stripL (l : List Char) : List Char := l.dropWhile (· == ' ')

/-- The line with leading and trailing spaces removed. -/
def trimL (l : List Char) : List Char :=
  ((l.dropWhile (· == ' ')).reverse.dropWhile (· == ' ')).reverse

/-- Does `pat` occur as a contiguous run inside `l`? -/
def hasSub (pat : List Char) : List Char → Bool
  | [] => pat.isEmpty
  | c :: t => pat.isPrefixOf (c :: t) || hasSub pat t

/-- Does the string `pat` occur as a substring of `s`? -/
def strHasSub (s pat : String) : Bool := hasSub pat.data s.data

/-- Split a character list at every occurrence of the character `c`. -/
def splitChar (c : Char) : List Char → List (List Char)
  | [] => [[]]
  | d :: t =>
    let r := splitChar c t
    if d == c then [] :: r
    else match r with
      | [] => [[d]]
      | h :: t2 => (d :: h) :: t2

/-- The lines of a multi-line string, as character lists. -/
def linesOf (s : String) : List (List Char) := splitChar (Char.ofNat 10) s.data

/-- Parse a run of decimal digits as a natural number (`none` if empty or non-digit). -/
def parseNatL (l : List Char) : Option Nat :=
  if l.isEmpty || !(l.all (·.isDigit)) then none
  else some (l.foldl (fun acc c => 10 * acc + (c.toNat - 48)) 0)

/-- Parse a decimal numeral `intpart.fracpart` (or a bare integer) as an exact
fraction: its numerator over its power-of-ten denominator. -/
def parseDecimalFrac (l : List Char) : Option (Nat × Nat) :=
  match splitChar (Char.ofNat 46) l with
  | [ip] => (parseNatL ip).map (fun n => (n, 1))
  | [ip, fp] =>
    match parseNatL ip, parseNatL fp with
    | some n, some f => some (n * 10 ^ fp.length + f, 10 ^ fp.length)
    | _, _ => none
  | _ => none

/-- Is `l` a hyphen-separated hexadecimal UUID (8-4-4-4-12 hex digits)? -/
def isUUID (l : List Char) : Bool :=
  match splitChar (Char.ofNat 45) l with
  | [a, b, c, d, e] =>
    a.length == 8 && b.length == 4 && c.length == 4 && d.length == 4 &&
    e.length == 12 && (a ++ b ++ c ++ d ++ e).all (fun ch => ch.isDigit || (ch ≥ 'a' && ch ≤ 'f'))
  | _ => false
/-- The reStructuredText tutorial `docs/tutorials/01.running_simple_negotiation.rst`,
embedded verbatim as its list of lines (the file has 308 lines). -/
def rstLines : List String := [
"Running a Negotiation",
"---------------------",
"",
"NegMAS has several built-in negotiation ``Mechanism`` s (``Protocol``",
"s), negotiation agents (``Negotiator`` s), and ``UtilityFunction`` s.",
"You can use these to run negotiations as follows:",
"",
".. code:: ipython3",
"",
"    import random # for generating random ufuns",
"    random.seed(0) # for reproducibility",
"    from pprint import pprint # for printing",
"    from negmas import SAOMechanism, AspirationNegotiator, MappingUtilityFunction",
"    ",
"    session = SAOMechanism(outcomes=10, n_steps=100)",
"    negotiators = [AspirationNegotiator(name=f\x27a\x7b_\x7d\x27) for _ in range(5)]",
"    for negotiator in negotiators:",
"        session.add(negotiator, ufun=MappingUtilityFunction(lambda x: random.random() * x[0]))",
"    ",
"    pprint(session.run().__dict__)",
"",
"",
".. parsed-literal::",
"",
"    \x7b\x27agreement\x27: (8,),",
"     \x27broken\x27: False,",
"     \x27current_offer\x27: (8,),",
"     \x27current_proposer\x27: \x27a2-5aac9b8c-26d4-4f65-87a9-80db194a2fb6\x27,",
"     \x27error_details\x27: \x27\x27,",
"     \x27has_error\x27: False,",
"     \x27n_acceptances\x27: 0,",
"     \x27n_negotiators\x27: 5,",
"     \x27new_offers\x27: [],",
"     \x27relative_time\x27: 0.15,",
"     \x27results\x27: None,",
"     \x27running\x27: False,",
"     \x27started\x27: True,",
"     \x27step\x27: 14,",
"     \x27time\x27: 0.0038831250000015416,",
"     \x27timedout\x27: False,",
"     \x27waiting\x27: False\x7d",
"",
"",
"Negotations end with a status that shows you what happens. In the above",
"example, we can see that the negotiation was not broken and did not",
"time-out. The agreement was on outcome ``(4,)`` of the *10* possible",
"outcomes of this negotiation. That offer was offered by negotiator",
"``a0`` (the rest of the agent *ID* is always a random value to ensure no",
"name repetitions) which was accepted by all of the other *4*",
"negotiators.",
"",
"It is possible to run the same negotiation using a ``Protocol`` object",
"instead of a ``Mechanism`` object",
"",
".. code:: ipython3",
"",
"    random.seed(0) # for reproducibility",
"    from negmas import SAOProtocol",
"    ",
"    session = SAOProtocol(outcomes=10, n_steps=100)",
"    negotiators = [AspirationNegotiator(name=f\x27a\x7b_\x7d\x27) for _ in range(5)]",
"    for negotiator in negotiators:",
"        session.add(negotiator, ufun=MappingUtilityFunction(lambda x: random.random() * x[0]))",
"    ",
"    pprint(session.run().__dict__)",
"",
"",
".. parsed-literal::",
"",
"    \x7b\x27agreement\x27: (8,),",
"     \x27broken\x27: False,",
"     \x27current_offer\x27: (8,),",
"     \x27current_proposer\x27: \x27a2-4c716440-5f33-4d20-bbe1-13c2c7bb1f17\x27,",
"     \x27error_details\x27: \x27\x27,",
"     \x27has_error\x27: False,",
"     \x27n_acceptances\x27: 0,",
"     \x27n_negotiators\x27: 5,",
"     \x27new_offers\x27: [],",
"     \x27relative_time\x27: 0.15,",
"     \x27results\x27: None,",
"     \x27running\x27: False,",
"     \x27started\x27: True,",
"     \x27step\x27: 14,",
"     \x27time\x27: 0.0074510620000012295,",
"     \x27timedout\x27: False,",
"     \x27waiting\x27: False\x7d",
"",
"",
"As you can see, we got the same output.\\ ``Protocol`` is an alias of",
"``Mechanism`` in NegMAS.",
"",
"Let\u2019s try a more meaningful situation: Assume we have a buyer and a",
"seller who are negotiating about a business transaction in which the",
"buyer wants to maximize his profit while the seller wants to minimize",
"her cost. They both would like to transact on as much as possible of the",
"product and each has some preferred delivery time.",
"",
"This can be modeled in the following negotiation:",
"",
".. code:: ipython3",
"",
"    from negmas import Issue, SAOMechanism, AspirationNegotiator, normalize",
"    from negmas.utilities import LinearUtilityAggregationFunction as LUFun",
"    issues = [Issue(name=\x27price\x27, values=10), Issue(name=\x27quantity\x27, values=10)",
"              , Issue(name=\x27delivery_time\x27, values=10)]",
"    session = SAOMechanism(issues=issues, n_steps=20)",
"    ",
"    buyer_utility = normalize(ufun=LUFun(issue_utilities=\x7b\x27price\x27: lambda x: 9.0 - x",
"                                           , \x27quantity\x27: lambda x: 0.2 * x",
"                                           , \x27delivery_time\x27: lambda x: x\x7d)",
"                             , outcomes=session.outcomes)",
"    ",
"    seller_utility = normalize(ufun=LUFun(issue_utilities=\x7b\x27price\x27: lambda x: x",
"                                           , \x27quantity\x27: lambda x: 0.2 * x",
"                                           , \x27delivery_time\x27: lambda x: 9.0 - x\x7d)",
"                               , outcomes=session.outcomes)",
"    ",
"    ",
"    session.add(AspirationNegotiator(name=\x27buyer\x27), ufun=buyer_utility)",
"    session.add(AspirationNegotiator(name=\x27seller\x27), ufun=seller_utility)",
"    pprint(session.run().__dict__)",
"",
"",
".. parsed-literal::",
"",
"    \x7b\x27agreement\x27: \x7b\x27delivery_time\x27: 8, \x27price\x27: 9, \x27quantity\x27: 9\x7d,",
"     \x27broken\x27: False,",
"     \x27current_offer\x27: \x7b\x27delivery_time\x27: 8, \x27price\x27: 9, \x27quantity\x27: 9\x7d,",
"     \x27current_proposer\x27: \x27seller-ad4c617c-ff00-425f-91ea-1a5548dd15c2\x27,",
"     \x27error_details\x27: \x27\x27,",
"     \x27has_error\x27: False,",
"     \x27n_acceptances\x27: 0,",
"     \x27n_negotiators\x27: 2,",
"     \x27new_offers\x27: [],",
"     \x27relative_time\x27: 0.9,",
"     \x27results\x27: None,",
"     \x27running\x27: False,",
"     \x27started\x27: True,",
"     \x27step\x27: 17,",
"     \x27time\x27: 0.003465158000000912,",
"     \x27timedout\x27: False,",
"     \x27waiting\x27: False\x7d",
"",
"",
"In this run, we can see that the agreement was on a high price (*9*)",
"which is preferred by the seller but with a delivery time of *8* which",
"is preferred by the buyer. Negotiation took *17* steps out of the",
"allowed *20* (*90%* of the available time)",
"",
"We can check the negotiation history as well",
"",
".. code:: ipython3",
"",
"    for i, _ in enumerate(session.history):",
"        print(f\x27\x7bi:03\x7d: \x7b_.new_offers\x7d\x27)",
"",
"",
".. parsed-literal::",
"",
"    000: [(\x27buyer-3c173a7a-5a49-420e-9d20-c9a6d0d5da7b\x27, \x7b\x27price\x27: 0, \x27quantity\x27: 9, \x27delivery_time\x27: 9\x7d), (\x27seller-ad4c617c-ff00-425f-91ea-1a5548dd15c2\x27, \x7b\x27price\x27: 9, \x27quantity\x27: 9, \x27delivery_time\x27: 0\x7d)]",
"    001: [(\x27buyer-3c173a7a-5a49-420e-9d20-c9a6d0d5da7b\x27, \x7b\x27price\x27: 0, \x27quantity\x27: 9, \x27delivery_time\x27: 9\x7d), (\x27seller-ad4c617c-ff00-425f-91ea-1a5548dd15c2\x27, \x7b\x27price\x27: 9, \x27quantity\x27: 9, \x27delivery_time\x27: 0\x7d)]",
"    002: [(\x27buyer-3c173a7a-5a49-420e-9d20-c9a6d0d5da7b\x27, \x7b\x27price\x27: 0, \x27quantity\x27: 9, \x27delivery_time\x27: 9\x7d), (\x27seller-ad4c617c-ff00-425f-91ea-1a5548dd15c2\x27, \x7b\x27price\x27: 9, \x27quantity\x27: 9, \x27delivery_time\x27: 0\x7d)]",
"    003: [(\x27buyer-3c173a7a-5a49-420e-9d20-c9a6d0d5da7b\x27, \x7b\x27price\x27: 0, \x27quantity\x27: 9, \x27delivery_time\x27: 9\x7d), (\x27seller-ad4c617c-ff00-425f-91ea-1a5548dd15c2\x27, \x7b\x27price\x27: 9, \x27quantity\x27: 9, \x27delivery_time\x27: 0\x7d)]",
"    004: [(\x27buyer-3c173a7a-5a49-420e-9d20-c9a6d0d5da7b\x27, \x7b\x27price\x27: 0, \x27quantity\x27: 9, \x27delivery_time\x27: 9\x7d), (\x27seller-ad4c617c-ff00-425f-91ea-1a5548dd15c2\x27, \x7b\x27price\x27: 9, \x27quantity\x27: 9, \x27delivery_time\x27: 0\x7d)]",
"    005: [(\x27buyer-3c173a7a-5a49-420e-9d20-c9a6d0d5da7b\x27, \x7b\x27price\x27: 0, \x27quantity\x27: 9, \x27delivery_time\x27: 9\x7d), (\x27seller-ad4c617c-ff00-425f-91ea-1a5548dd15c2\x27, \x7b\x27price\x27: 9, \x27quantity\x27: 9, \x27delivery_time\x27: 0\x7d)]",
"    006: [(\x27buyer-3c173a7a-5a49-420e-9d20-c9a6d0d5da7b\x27, \x7b\x27price\x27: 0, \x27quantity\x27: 8, \x27delivery_time\x27: 9\x7d), (\x27seller-ad4c617c-ff00-425f-91ea-1a5548dd15c2\x27, \x7b\x27price\x27: 9, \x27quantity\x27: 8, \x27delivery_time\x27: 0\x7d)]",
"    007: [(\x27buyer-3c173a7a-5a49-420e-9d20-c9a6d0d5da7b\x27, \x7b\x27price\x27: 0, \x27quantity\x27: 7, \x27delivery_time\x27: 9\x7d), (\x27seller-ad4c617c-ff00-425f-91ea-1a5548dd15c2\x27, \x7b\x27price\x27: 9, \x27quantity\x27: 7, \x27delivery_time\x27: 0\x7d)]",
"    008: [(\x27buyer-3c173a7a-5a49-420e-9d20-c9a6d0d5da7b\x27, \x7b\x27price\x27: 0, \x27quantity\x27: 5, \x27delivery_time\x27: 9\x7d), (\x27seller-ad4c617c-ff00-425f-91ea-1a5548dd15c2\x27, \x7b\x27price\x27: 9, \x27quantity\x27: 5, \x27delivery_time\x27: 0\x7d)]",
"    009: [(\x27buyer-3c173a7a-5a49-420e-9d20-c9a6d0d5da7b\x27, \x7b\x27price\x27: 1, \x27quantity\x27: 8, \x27delivery_time\x27: 9\x7d), (\x27seller-ad4c617c-ff00-425f-91ea-1a5548dd15c2\x27, \x7b\x27price\x27: 9, \x27quantity\x27: 8, \x27delivery_time\x27: 1\x7d)]",
"    010: [(\x27buyer-3c173a7a-5a49-420e-9d20-c9a6d0d5da7b\x27, \x7b\x27price\x27: 1, \x27quantity\x27: 5, \x27delivery_time\x27: 9\x7d), (\x27seller-ad4c617c-ff00-425f-91ea-1a5548dd15c2\x27, \x7b\x27price\x27: 9, \x27quantity\x27: 5, \x27delivery_time\x27: 1\x7d)]",
"    011: [(\x27buyer-3c173a7a-5a49-420e-9d20-c9a6d0d5da7b\x27, \x7b\x27price\x27: 2, \x27quantity\x27: 7, \x27delivery_time\x27: 9\x7d), (\x27seller-ad4c617c-ff00-425f-91ea-1a5548dd15c2\x27, \x7b\x27price\x27: 9, \x27quantity\x27: 7, \x27delivery_time\x27: 2\x7d)]",
"    012: [(\x27buyer-3c173a7a-5a49-420e-9d20-c9a6d0d5da7b\x27, \x7b\x27price\x27: 3, \x27quantity\x27: 7, \x27delivery_time\x27: 9\x7d), (\x27seller-ad4c617c-ff00-425f-91ea-1a5548dd15c2\x27, \x7b\x27price\x27: 9, \x27quantity\x27: 7, \x27delivery_time\x27: 3\x7d)]",
"    013: [(\x27buyer-3c173a7a-5a49-420e-9d20-c9a6d0d5da7b\x27, \x7b\x27price\x27: 4, \x27quantity\x27: 6, \x27delivery_time\x27: 9\x7d), (\x27seller-ad4c617c-ff00-425f-91ea-1a5548dd15c2\x27, \x7b\x27price\x27: 9, \x27quantity\x27: 6, \x27delivery_time\x27: 4\x7d)]",
"    014: [(\x27buyer-3c173a7a-5a49-420e-9d20-c9a6d0d5da7b\x27, \x7b\x27price\x27: 6, \x27quantity\x27: 8, \x27delivery_time\x27: 9\x7d), (\x27seller-ad4c617c-ff00-425f-91ea-1a5548dd15c2\x27, \x7b\x27price\x27: 9, \x27quantity\x27: 8, \x27delivery_time\x27: 6\x7d)]",
"    015: [(\x27buyer-3c173a7a-5a49-420e-9d20-c9a6d0d5da7b\x27, \x7b\x27price\x27: 8, \x27quantity\x27: 9, \x27delivery_time\x27: 9\x7d), (\x27seller-ad4c617c-ff00-425f-91ea-1a5548dd15c2\x27, \x7b\x27price\x27: 9, \x27quantity\x27: 9, \x27delivery_time\x27: 8\x7d)]",
"    016: []",
"",
"",
"We can even plot the complete negotiation history and visually see how",
"far were the result from the pareto frontier (it was 0.0 utility units",
"far from it).",
"",
".. code:: ipython3",
"",
"    session.plot(plot_outcomes=False)",
"",
"",
"",
".. image:: 01.running_simple_negotiation_files/01.running_simple_negotiation_10_0.png",
"",
"",
"What happens if the seller was much more interested in delivery time.",
"",
"Firstly, what do you expect?",
"",
"Given that delivery time becomes a more important issue now, the seller",
"will get more utility points by allowing the price to go down given that",
"the delivery time can be made earlier. This means that we should expect",
"the delivery time and price to go down. Let\u2019s see what happens:",
"",
".. code:: ipython3",
"",
"    session = SAOMechanism(issues=issues, n_steps=50)",
"    ",
"    seller_utility = normalize(ufun=LUFun(issue_utilities=\x7b\x27price\x27: lambda x: x",
"                                           , \x27quantity\x27: lambda x: 0.2 * x",
"                                           , \x27delivery_time\x27: lambda x: 9.0 - x\x7d",
"                                         , weights = \x7b\x27price\x27: 1.0, \x27quantity\x27: 1.0, \x27delivery_time\x27: 10.0\x7d)",
"                             , outcomes=session.outcomes)",
"    ",
"    session.add(AspirationNegotiator(name=\x27buyer\x27), ufun=buyer_utility)",
"    session.add(AspirationNegotiator(name=\x27seller\x27), ufun=seller_utility)",
"    pprint(session.run().__dict__)",
"",
"",
".. parsed-literal::",
"",
"    \x7b\x27agreement\x27: \x7b\x27delivery_time\x27: 5, \x27price\x27: 5, \x27quantity\x27: 4\x7d,",
"     \x27broken\x27: False,",
"     \x27current_offer\x27: \x7b\x27delivery_time\x27: 5, \x27price\x27: 5, \x27quantity\x27: 4\x7d,",
"     \x27current_proposer\x27: \x27seller-173db5fe-e74c-4606-a852-20cab203b9a4\x27,",
"     \x27error_details\x27: \x27\x27,",
"     \x27has_error\x27: False,",
"     \x27n_acceptances\x27: 0,",
"     \x27n_negotiators\x27: 2,",
"     \x27new_offers\x27: [],",
"     \x27relative_time\x27: 0.9,",
"     \x27results\x27: None,",
"     \x27running\x27: False,",
"     \x27started\x27: True,",
"     \x27step\x27: 44,",
"     \x27time\x27: 0.0098199189999999,",
"     \x27timedout\x27: False,",
"     \x27waiting\x27: False\x7d",
"",
"",
"We can check it visually as well:",
"",
".. code:: ipython3",
"",
"    session.plot(plot_outcomes=False)",
"",
"",
"",
".. image:: 01.running_simple_negotiation_files/01.running_simple_negotiation_14_0.png",
"",
"",
"It is clear that the new ufuns transformed the problem. Now we have a",
"single outcome at the pareto front. Nevertheless, there is money on the",
"table as the negotiators did not agree on an outcome on the pareto",
"front.",
"",
"What happens if we give them more time to negotiate:",
"",
".. code:: ipython3",
"",
"    session = SAOMechanism(issues=issues, n_steps=5000)",
"    ",
"    seller_utility = normalize(ufun=LUFun(issue_utilities=\x7b\x27price\x27: lambda x: x",
"                                           , \x27quantity\x27: lambda x: 0.2 * x",
"                                           , \x27delivery_time\x27: lambda x: 9.0 - x\x7d",
"                                         , weights = \x7b\x27price\x27: 1.0, \x27quantity\x27: 1.0, \x27delivery_time\x27: 10.0\x7d)",
"                             , outcomes=session.outcomes)",
"    ",
"    session.add(AspirationNegotiator(name=\x27buyer\x27), ufun=buyer_utility)",
"    session.add(AspirationNegotiator(name=\x27seller\x27), ufun=seller_utility)",
"    session.run()",
"    session.plot(plot_outcomes=False)",
"",
"",
"",
".. image:: 01.running_simple_negotiation_files/01.running_simple_negotiation_16_0.png",
"",
"",
"It did not help! The two agents adjusted their concession to match the",
"new time and they did not get to the Pareto-front.",
"",
"Let\u2019s allow them to concede faster by setting their ``aspiration_type``",
"to *linear* instead of the default *boulware*:",
"",
".. code:: ipython3",
"",
"    session = SAOMechanism(issues=issues, n_steps=5000)",
"    ",
"    seller_utility = normalize(ufun=LUFun(issue_utilities=\x7b\x27price\x27: lambda x: x",
"                                           , \x27quantity\x27: lambda x: 0.2 * x",
"                                           , \x27delivery_time\x27: lambda x: 9.0 - x\x7d",
"                                         , weights = \x7b\x27price\x27: 1.0, \x27quantity\x27: 1.0, \x27delivery_time\x27: 10.0\x7d)",
"                             , outcomes=session.outcomes)",
"    ",
"    session.add(AspirationNegotiator(name=\x27buyer\x27, aspiration_type=\"linear\"), ufun=buyer_utility)",
"    session.add(AspirationNegotiator(name=\x27seller\x27, aspiration_type=\"linear\"), ufun=seller_utility)",
"    session.run()",
"    session.plot(plot_outcomes=False)",
"",
"",
"",
".. image:: 01.running_simple_negotiation_files/01.running_simple_negotiation_18_0.png",
"",
"",
"It is clear that longer negotiation time, and faster concession did not",
"help the negotiators get to a point on the pareto-front.",
"",
"",
"",
"",
"Download :download:`Notebook<notebooks/01.running_simple_negotiation.ipynb>`.",
""
]

/-- One output object of a notebook code cell: its `output_type`, the stream
`name` (empty when absent), the joined `text` lines of a stream output, and the
joined `text/html` and `text/plain` entries of its `data` (empty when absent). -/
structure NbOutput where
  outputType : String
  streamName : String
  streamText : String
  dataHtml : String
  dataPlain : String
deriving DecidableEq, Repr

/-- One cell of the notebook: its `cell_type`, joined `source` lines, and outputs. -/
structure NbCell where
  cellType : String
  source : String
  outputs : List NbOutput
deriving DecidableEq, Repr

/-- Cell 0 of `docs/tutorials/notebooks/07.develop_scml_agent.ipynb`, verbatim. -/
def nbCell0 : NbCell :=
⟨"code",
"%matplotlib inline\n# setup disply parameters\nimport pandas as pd\nimport numpy as np\nfrom matplotlib import pylab as plt\nfrom matplotlib.ticker import StrMethodFormatter\nfloat_formatter = StrMethodFormatter(\x27\x7bx:0.03f\x7d\x27)\nfrom IPython.core.display import display, HTML\ndisplay(HTML(\"<style>.container \x7b width:95% !important; \x7d</style>\"))\nSMALL_SIZE = 14\nMEDIUM_SIZE = 16\nBIGGER_SIZE = 20\n\nplt.rc(\x27font\x27, size=SMALL_SIZE)          # controls default text sizes\nplt.rc(\x27axes\x27, titlesize=SMALL_SIZE)     # fontsize of the axes title\nplt.rc(\x27axes\x27, labelsize=MEDIUM_SIZE)    # fontsize of the x and y labels\nplt.rc(\x27xtick\x27, labelsize=SMALL_SIZE)    # fontsize of the tick labels\nplt.rc(\x27ytick\x27, labelsize=SMALL_SIZE)    # fontsize of the tick labels\nplt.rc(\x27legend\x27, fontsize=SMALL_SIZE)    # legend fontsize\nplt.rc(\x27figure\x27, titlesize=BIGGER_SIZE)  # fontsize of the figure title\nplt.rc(\x27figure\x27, figsize=(18, 6)) # set figure size",
[
⟨"display_data", "", "", "<style>.container \x7b width:95% !important; \x7d</style>", "<IPython.core.display.HTML object>"⟩
]⟩

/-- Cell 1 of `docs/tutorials/notebooks/07.develop_scml_agent.ipynb`, verbatim. -/
def nbCell1 : NbCell :=
⟨"code",
"import yaml\ntry:\n    yaml.warnings(\x7b\x27YAMLLoadWarning\x27: False\x7d) # avoid a dask warning in newest yaml.\nexcept:\n    pass",
[]⟩

/-- Cell 2 of `docs/tutorials/notebooks/07.develop_scml_agent.ipynb`, verbatim. -/
def nbCell2 : NbCell :=
⟨"markdown",
"## Develop a factory manager (agent) for the SCM world\n\nThis tutorial describes how to develop an agent for the SCM world, test it, and submit it to the ANAC 2019 SCM league.\n\nThe first step is to install negmas\n\n```bash\npip install negmas\n```\nOnce you have this library installed, you can start developing your factory manager:",
[]⟩

/-- Cell 3 of `docs/tutorials/notebooks/07.develop_scml_agent.ipynb`, verbatim. -/
def nbCell3 : NbCell :=
⟨"code",
"from negmas.apps.scml import FactoryManager\ntry:\n    class MyFactoryManager(FactoryManager):\n        \"\"\"My factory manager\"\"\"\n    f = MyFactoryManager()\nexcept Exception as e:\n    print(e)",
[
⟨"stream", "stdout", "Can\x27t instantiate abstract class MyFactoryManager with abstract methods confirm_contract_execution, confirm_loan, confirm_partial_execution, init, on_agent_bankrupt, on_cash_transfer, on_contract_breached, on_contract_cancelled, on_contract_executed, on_contract_nullified, on_contract_signed, on_inventory_change, on_neg_request_accepted, on_neg_request_rejected, on_negotiation_failure, on_negotiation_success, on_new_cfp, on_new_report, on_production_failure, on_production_success, on_remove_cfp, respond_to_negotiation_request, respond_to_renegotiation_request, set_renegotiation_agenda, sign_contract, step\n", "", ""⟩
]⟩

/-- Cell 4 of `docs/tutorials/notebooks/07.develop_scml_agent.ipynb`, verbatim. -/
def nbCell4 : NbCell :=
⟨"markdown",
"You are told that you cannot instantiate your newly created class as did not implement the abstract (required) methods. These abstract methods are useful in giving you an idea of all the callback you should expect.\n\nIf you want some default behavior implemented for you, you can inherit from one of the provided factory managers like ``DoNothingFactoryManager`` and ``GreedyFactoryManager``. In this case, you only need to override the functions you modify",
[]⟩

/-- Cell 5 of `docs/tutorials/notebooks/07.develop_scml_agent.ipynb`, verbatim. -/
def nbCell5 : NbCell :=
⟨"code",
"from negmas.apps.scml import DoNothingFactoryManager\nclass MyFactoryManager(DoNothingFactoryManager):\n    \"\"\"My factory manager\"\"\"\n",
[]⟩

/-- Cell 6 of `docs/tutorials/notebooks/07.develop_scml_agent.ipynb`, verbatim. -/
def nbCell6 : NbCell :=
⟨"markdown",
"As the [documentation](http://www.yasserm.com/negmas/negmas.apps.scml.html?highlight=on_negotiation_request#negmas.apps.scml.SCMLAgent.on_negotiation_request) states, this function is called whenever your factory manager receives a request from another agent to negotiate. You can either return `None` if you do not want to accept this negotiation or create  a `Negotiator` that represents your agent in it.\n\n\nYour do-nothing agent is almost ready. Let\x27s try it:",
[]⟩

/-- Cell 7 of `docs/tutorials/notebooks/07.develop_scml_agent.ipynb`, verbatim. -/
def nbCell7 : NbCell :=
⟨"markdown",
"The property `stats` in `World` gives you several statistics about the world for every time-step of the simulation.\n\nLet\x27s check the contracts of this world:",
[]⟩

/-- Cell 8 of `docs/tutorials/notebooks/07.develop_scml_agent.ipynb`, verbatim. -/
def nbCell8 : NbCell :=
⟨"markdown",
"Let\x27s try to run a tournament with this do-nothing agent against the built-in greedy agent (in the \"collusion\" track setting):",
[]⟩

/-- Cell 9 of `docs/tutorials/notebooks/07.develop_scml_agent.ipynb`, verbatim. -/
def nbCell9 : NbCell :=
⟨"code",
"from negmas.apps.scml.utils import anac2019_collusion\nfrom negmas.apps.scml import GreedyFactoryManager\n\nresults = anac2019_collusion(competitors=(MyFactoryManager, GreedyFactoryManager)\n                              , agent_names_reveal_type=True\n                              , n_configs=2        # create 10 different configs\n                              , max_worlds_per_config=4 # create no more then 4 worlds per config\n                              , n_runs_per_world=1 # number of runs of each configured world\n                              , n_steps=50              # we are running each world for 50 steps only                              \n                             )",
[]⟩

/-- Cell 10 of `docs/tutorials/notebooks/07.develop_scml_agent.ipynb`, verbatim. -/
def nbCell10 : NbCell :=
⟨"markdown",
"You can see the scores that each individual factory manager got (just a random sample):",
[]⟩

/-- Cell 11 of `docs/tutorials/notebooks/07.develop_scml_agent.ipynb`, verbatim. -/
def nbCell11 : NbCell :=
⟨"code",
"results.scores.tail()",
[
⟨"execute_result", "", "", "<div>\n<style scoped>\n    .dataframe tbody tr th:only-of-type \x7b\n        vertical-align: middle;\n    \x7d\n\n    .dataframe tbody tr th \x7b\n        vertical-align: top;\n    \x7d\n\n    .dataframe thead th \x7b\n        text-align: right;\n    \x7d\n</style>\n<table border=\"1\" class=\"dataframe\">\n  <thead>\n    <tr style=\"text-align: right;\">\n      <th></th>\n      <th>agent_name</th>\n      <th>agent_type</th>\n      <th>log_file</th>\n      <th>score</th>\n      <th>stats_folder</th>\n      <th>world</th>\n    </tr>\n  </thead>\n  <tbody>\n    <tr>\n      <th>75</th>\n      <td>greedy@3_0</td>\n      <td>greedy_factory_manager</td>\n      <td>/Users/yasser/code/projects/negmas/notebooks/t...</td>\n      <td>-0.00735</td>\n      <td>/Users/yasser/code/projects/negmas/notebooks/t...</td>\n      <td>20190524-225118nW5E00003</td>\n    </tr>\n    <tr>\n      <th>76</th>\n      <td>greedy@3_1</td>\n      <td>greedy_factory_manager</td>\n      <td>/Users/yasser/code/projects/negmas/notebooks/t...</td>\n      <td>-0.00627</td>\n      <td>/Users/yasser/code/projects/negmas/notebooks/t...</td>\n      <td>20190524-225118nW5E00003</td>\n    </tr>\n    <tr>\n      <th>77</th>\n      <td>my@3_2</td>\n      <td>my_factory_manager</td>\n      <td>/Users/yasser/code/projects/negmas/notebooks/t...</td>\n      <td>0.00000</td>\n      <td>/Users/yasser/code/projects/negmas/notebooks/t...</td>\n      <td>20190524-225118nW5E00003</td>\n    </tr>\n    <tr>\n      <th>78</th>\n      <td>greedy@3_3</td>\n      <td>greedy_factory_manager</td>\n      <td>/Users/yasser/code/projects/negmas/notebooks/t...</td>\n      <td>-0.00643</td>\n      <td>/Users/yasser/code/projects/negmas/notebooks/t...</td>\n      <td>20190524-225118nW5E00003</td>\n    </tr>\n    <tr>\n      <th>79</th>\n      <td>my@4_0</td>\n      <td>my_factory_manager</td>\n      <td>/Users/yasser/code/projects/negmas/notebooks/t...</td>\n      <td>0.00000</td>\n      <td>/Users/yasser/code/projects/negmas/notebooks/t...</td>\n      <td>20190524-225118nW5E00003</td>\n    </tr>\n  </tbody>\n</table>\n</div>", "    agent_name              agent_type  \\\n75  greedy@3_0  greedy_factory_manager   \n76  greedy@3_1  greedy_factory_manager   \n77      my@3_2      my_factory_manager   \n78  greedy@3_3  greedy_factory_manager   \n79      my@4_0      my_factory_manager   \n\n                                             log_file    score  \\\n75  /Users/yasser/code/projects/negmas/notebooks/t... -0.00735   \n76  /Users/yasser/code/projects/negmas/notebooks/t... -0.00627   \n77  /Users/yasser/code/projects/negmas/notebooks/t...  0.00000   \n78  /Users/yasser/code/projects/negmas/notebooks/t... -0.00643   \n79  /Users/yasser/code/projects/negmas/notebooks/t...  0.00000   \n\n                                         stats_folder  \\\n75  /Users/yasser/code/projects/negmas/notebooks/t...   \n76  /Users/yasser/code/projects/negmas/notebooks/t...   \n77  /Users/yasser/code/projects/negmas/notebooks/t...   \n78  /Users/yasser/code/projects/negmas/notebooks/t...   \n79  /Users/yasser/code/projects/negmas/notebooks/t...   \n\n                       world  \n75  20190524-225118nW5E00003  \n76  20190524-225118nW5E00003  \n77  20190524-225118nW5E00003  \n78  20190524-225118nW5E00003  \n79  20190524-225118nW5E00003  "⟩
]⟩

/-- Cell 12 of `docs/tutorials/notebooks/07.develop_scml_agent.ipynb`, verbatim. -/
def nbCell12 : NbCell :=
⟨"markdown",
"You can also check the total scores for each factory manager type:",
[]⟩

/-- Cell 13 of `docs/tutorials/notebooks/07.develop_scml_agent.ipynb`, verbatim. -/
def nbCell13 : NbCell :=
⟨"code",
"results.total_scores",
[
⟨"execute_result", "", "", "<div>\n<style scoped>\n    .dataframe tbody tr th:only-of-type \x7b\n        vertical-align: middle;\n    \x7d\n\n    .dataframe tbody tr th \x7b\n        vertical-align: top;\n    \x7d\n\n    .dataframe thead th \x7b\n        text-align: right;\n    \x7d\n</style>\n<table border=\"1\" class=\"dataframe\">\n  <thead>\n    <tr style=\"text-align: right;\">\n      <th></th>\n      <th>agent_type</th>\n      <th>score</th>\n    </tr>\n  </thead>\n  <tbody>\n    <tr>\n      <th>0</th>\n      <td>greedy_factory_manager</td>\n      <td>0.010756</td>\n    </tr>\n    <tr>\n      <th>1</th>\n      <td>my_factory_manager</td>\n      <td>0.000000</td>\n    </tr>\n  </tbody>\n</table>\n</div>", "               agent_type     score\n0  greedy_factory_manager  0.010756\n1      my_factory_manager  0.000000"⟩
]⟩

/-- Cell 14 of `docs/tutorials/notebooks/07.develop_scml_agent.ipynb`, verbatim. -/
def nbCell14 : NbCell :=
⟨"markdown",
"If you want, you can check if these differences are statistically significant using a t-test:",
[]⟩

/-- Cell 15 of `docs/tutorials/notebooks/07.develop_scml_agent.ipynb`, verbatim. -/
def nbCell15 : NbCell :=
⟨"code",
"results.ttest",
[
⟨"execute_result", "", "", "<div>\n<style scoped>\n    .dataframe tbody tr th:only-of-type \x7b\n        vertical-align: middle;\n    \x7d\n\n    .dataframe tbody tr th \x7b\n        vertical-align: top;\n    \x7d\n\n    .dataframe thead th \x7b\n        text-align: right;\n    \x7d\n</style>\n<table border=\"1\" class=\"dataframe\">\n  <thead>\n    <tr style=\"text-align: right;\">\n      <th></th>\n      <th>a</th>\n      <th>b</th>\n      <th>p</th>\n      <th>t</th>\n    </tr>\n  </thead>\n  <tbody>\n    <tr>\n      <th>0</th>\n      <td>greedy_factory_manager</td>\n      <td>my_factory_manager</td>\n      <td>0.33257</td>\n      <td>0.975009</td>\n    </tr>\n  </tbody>\n</table>\n</div>", "                        a                   b        p         t\n0  greedy_factory_manager  my_factory_manager  0.33257  0.975009"⟩
]⟩

/-- Cell 16 of `docs/tutorials/notebooks/07.develop_scml_agent.ipynb`, verbatim. -/
def nbCell16 : NbCell :=
⟨"markdown",
"So the greedy factory manager is slightly better than the do-nothing factory manager for this short simulation getting an average gain of *1.1%* compared with nothing (*0%*) for the do-nothing factory manager (as expected). Moreover, this difference is *not* statistically significant as the p-value is *0.333 > 0.05*. If you try running this this tournament for less than *20*, the greedy factory manager will most likely lose money. In the actual league, we will run each world simulation between *50* and *100* steps (more toward the later).\n\nYou can just check the winner(s) list",
[]⟩

/-- Cell 17 of `docs/tutorials/notebooks/07.develop_scml_agent.ipynb`, verbatim. -/
def nbCell17 : NbCell :=
⟨"code",
"results.winners",
[
⟨"execute_result", "", "", "", "[\x27greedy_factory_manager\x27]"⟩
]⟩

/-- Cell 18 of `docs/tutorials/notebooks/07.develop_scml_agent.ipynb`, verbatim. -/
def nbCell18 : NbCell :=
⟨"markdown",
"and what was its/their score:",
[]⟩

/-- Cell 19 of `docs/tutorials/notebooks/07.develop_scml_agent.ipynb`, verbatim. -/
def nbCell19 : NbCell :=
⟨"code",
"print(results.winners_scores)",
[
⟨"stream", "stdout", "[0.0107562]\n", "", ""⟩
]⟩

/-- Cell 20 of `docs/tutorials/notebooks/07.develop_scml_agent.ipynb`, verbatim. -/
def nbCell20 : NbCell :=
⟨"markdown",
"To run a tournament in the \"standard\"/\"sabotage\" track settings, use \"anac2019_std\"/\"anac2019_sabotage\" instead of \"anac2019_collusion\".",
[]⟩

/-- Cell 21 of `docs/tutorials/notebooks/07.develop_scml_agent.ipynb`, verbatim. -/
def nbCell21 : NbCell :=
⟨"markdown",
"This information and much more is also stored in a log folder that gives details of every world and total scores, etc. The default location of this log folder is under negmas/logs/tournaments in your HOME directory (this can be changed by passing a `tournament_path` to the `anac2019_tournamet` function.\n\nThe information stored in this folder is:\n\n\n File/Folder Name       |  Format   |   Content\n--- | --- | ---\nbase_configs            |   FOLDER  |     Contains one json file for each configuration tried during the tournament before assigning agents to factories. \nassigned_configs        |   FOLDER  |     Contains one json file for each configuration tried during the tournament after assigning agents to factories. You can re-run this world using `run_world` function in the `tournament` module.\nparams.json             |    JSON  |      The parameters used to create this tournament\nscores.csv              |    CSV   |      Scores of every agent in every world\ntotal_scores.csv        |    CSV   |      Scores of every agent **type** averaged over all runs\nwinners.csv             |    CSV   |       Winner *types* and their average scores\nttest.csv               |    CSV   |       Results of a factorial TTEST comparing the performance of all agent *types*\n\nOther than these files, a folder with the same number as the corresponding config file in the configs folder, keeps full\nstatistics/log of every world with the following contents:\n\nFile Name          |        Format   |    Content\n--- | --- | ---\nall_contracts.csv        |    CSV    |   A record of all contracts\ncontracts_full_info.csv  |    CSV    |   A record of all contracts with added information about the CFPs\ncancelled_contracts.csv  |    CSV     |  Contracts that were cancelled because one partner refused to sign it\nsigned_contracts.csv     |    CSV     |  Contracts that were actually signed\nnegotiations.csv         |    CSV     |  A record of all negotiations\nbreaches.csv             |    CSV     |  A record of all breaches\nstats.csv                |    CSV     |  Helpful statistics about the state of the world at every timestep (e.g. N. negotiations, N. Contracts Executed, etc) in CSV format\nstats.json              |     JSON    |  Helpful statistics about the state of the world at every timestep (e.g. N. negotiations, N. Contracts Executed, etc) in JSON format\nparams.json            |      JSON    |  The arguments used to run the world\nlogs.txt               |      TXT     |  A log file giving details of most important events during the simulation\n",
[]⟩

/-- Cell 22 of `docs/tutorials/notebooks/07.develop_scml_agent.ipynb`, verbatim. -/
def nbCell22 : NbCell :=
⟨"markdown",
"To develop a more useful agent, you will need to override one or more of the available callbacks in ``FactroyManager`` and use methods available in the ``SCMLAWI`` (SCML Agent World Interface) to act in the world in order to maximize your profit.\n",
[]⟩

/-- Cell 23 of `docs/tutorials/notebooks/07.develop_scml_agent.ipynb`, verbatim. -/
def nbCell23 : NbCell :=
⟨"markdown",
"### Most important callbacks:\n\nThe most important callbacks that your class is expected to override to be useful as a factory manager are the following:\n\n- ``init()`` Called after the world is initialized, but before any simulation steps.\n- ``step()`` Called in the simulation loop. Simulates one step of the agent\u2019s logic. You can use this call to be *proactive*.\n- ``on_new_cfp()`` Called whenever a new Call for Proposals (CFP) is published on the bulletin board. The agent can specify a condition (e.g., buy CFPs only) such that only those CFPs that satisfy this condition will trigger this callback. By default your agent will only receive CFPs about products that it can use for production or can produce. You can override that by changing the ``insteresting_products`` property of your agent (probably in ``init()``). This callback can be used for implementing *reactive* behavior.\n- ``on_cfp_removed()`` Called whenever a CFP is removed from the bulletin board.\n- ``on_negotiation_request_accepted()/on_negotiation_request_rejected()`` Called when a negotiation request initiated by the agent is accepted/rejected.\n- ``on_negotiation_success()``/``on_negotiation_failure()`` Called when a negotiation the agent is involved in terminates.\n- ``sign_contract()`` Called by the simulator when it is time to sign a contract. The agent can refuse to sign. By default, agents sign the contract.\n- ``on_contract_signed()``/``on_contract_canelled()`` Called when a contract the agent is party to is signed/cancelled (contracts will be canceled if any of the partners party to it refused to sign it).\n- ``on_production_failure()`` Called whenever a production command scheduled by the agent cannot be executed (e.g. for lack of funds or need of input products).\n\n### More details\n**You can download a skeleton for developing your factory manager in either python or java [here](http://www.yasserm.com/scml/scml.zip).**\n\n\nFor more details, refer to [the detailed description of the SCM world](http://www.yasserm.com/scml/scml.pdf) and the ``Agent``, ``SCMLAgent``, and ``FactoryManager`` documentation at [NegMAS library documentation](http://negmas.readthedocs.io)\n\n",
[]⟩

/-- Cell 24 of `docs/tutorials/notebooks/07.develop_scml_agent.ipynb`, verbatim. -/
def nbCell24 : NbCell :=
⟨"markdown",
"### What can the agent do and know?\n\nThe agent can act by calling various methods of its ``awi`` member (Agent World Interface). The most important of these are:\n\n- ``request_negotiation()`` Requests a negotiation with another partner\n- ``register_interest()`` / ``unregister_interest`` By default the agent will receive ``on_*_cfp`` callbacks only on products that its factory consumes or produces. To override this behavior, you can use these two methods of the ``awi``.\n- ``register_cfp()`` / ``remove_cfp()`` Registers/removes a call for proposals indicating interest in buying/selling some product and giving the negotiation issues (e.g. deliver time, unit cost, quantity, penalty, signing delay).\n- ``evaluate_insurance()`` / ``buy_insurance()`` Gets the insurance premium for some potential contract or buys one\n- ``execute()`` Executes an action in the world. The only supported actions are scheduling a production process to run at some future time-step, stopping (or canceling) a previously issued run command.\n\nThe agent can also access some useful information through its ``awi``\x27s properties. Some of the most important such properties are:\n\n- ``state`` The state of the factory giving its current storage, cash in wallet, and standing loans as well as all scheduled production commands.\n- ``n_steps`` World simulation length\n- ``current_step`` Current world simulation step\n- ``products``/``processes`` Information about products/processes defined in this world (these are also accessible through local properties of the ``FactoryManager``\n- ``cfps`` All calls for proposals currently published in the bulletin board\n- ``breaches`` All breaches currently published in the bulletin board",
[]⟩

/-- Cell 25 of `docs/tutorials/notebooks/07.develop_scml_agent.ipynb`, verbatim. -/
def nbCell25 : NbCell :=
⟨"markdown",
"### Participation in the ANAC 2019 SCM league\nNow, you completed the development of your factory manager, tested it by running it in worlds and tournaments, what exactly should you do to participate in the SCM league @ ANAC 2019:\n\nYou need to submit the following items:\n\n- Names of all members of the team with their affiliations and email addresses\n- Either a single python file with the whole implementation of your agent with any supporting code or a zip file with a single folder containing your code. In the later case, you will need to indicate the class name of your factory manager. Any factory manager names are accepted except (Insurance, Bank, MFactoryManager, CFactoryManager).\n- A 2-pages academic report about your factory manager. Please check the submission website for details about this report.\n\nThat is it folks!\nYou can now start developing your own factory manager. Have fun.\n\n**You can download a skeleton for developing your factory manager in either python or java [here](http://www.yasserm.com/scml/scml.zip).**\n",
[]⟩

/-- Cell 26 of `docs/tutorials/notebooks/07.develop_scml_agent.ipynb`, verbatim. -/
def nbCell26 : NbCell :=
⟨"markdown",
"### More Information\nFor more information, please refer to the links in the [CFP](http://www.yasserm.com/scml/cfp_scml.pdf)\n\n",
[]⟩

/-- Cell 27 of `docs/tutorials/notebooks/07.develop_scml_agent.ipynb`, verbatim. -/
def nbCell27 : NbCell :=
⟨"code",
"",
[]⟩

/-- Cell 28 of `docs/tutorials/notebooks/07.develop_scml_agent.ipynb`, verbatim. -/
def nbCell28 : NbCell :=
⟨"code",
"",
[]⟩

/-- The cells of `07.develop_scml_agent.ipynb`, in order (the notebook has 29 cells). -/
def nbCells : List NbCell := [
nbCell0, nbCell1, nbCell2, nbCell3, nbCell4, nbCell5, nbCell6, nbCell7, nbCell8, nbCell9, nbCell10, nbCell11, nbCell12, nbCell13, nbCell14, nbCell15, nbCell16, nbCell17, nbCell18, nbCell19, nbCell20, nbCell21, nbCell22, nbCell23, nbCell24, nbCell25, nbCell26, nbCell27, nbCell28
]

/-- The `nbformat` field of the notebook JSON document. -/
def nbformatMajor : Nat := 4

/-- The `nbformat_minor` field of the notebook JSON document. -/
def nbformatMinor : Nat := 2

/-! ## The slice and its documents -/

/-- The kind of a document in the repository slice. -/
inductive DocKind
  | rstExport
  | jupyterNotebook
deriving DecidableEq, Repr

/-- A document of the repository slice: its path and kind. -/
structure SliceDoc where
  path : String
  kind : DocKind
deriving DecidableEq, Repr

/-- The documents making up the repository slice (its only two files). -/
def sliceDocs : List SliceDoc :=
  [⟨"docs/tutorials/01.running_simple_negotiation.rst", DocKind.rstExport⟩,
   ⟨"docs/tutorials/notebooks/07.develop_scml_agent.ipynb", DocKind.jupyterNotebook⟩]

/-- The paths of the slice's files. -/
def slicePaths : List String := sliceDocs.map (·.path)

/-! ## Extraction of rst blocks and code fragments -/

/-- A line belongs to the body of an rst directive block when it is blank or
indented by the four-space block indent. -/
def isBlockBodyLine (l : List Char) : Bool :=
  isBlankL l || ("    ".data).isPrefixOf l

/-- Scanner state while grouping rst block bodies: the (reversed) lines of the
block currently open, if any, and the (reversed) list of completed blocks. -/
structure BlockScan where
  cur : Option (List (List Char))
  found : List (List (List Char))

/-- One scanner step: a directive line equal to `marker` opens a block; blank
and indented lines extend an open block; any other top-level line closes it. -/
def blockStep (marker : List Char) (st : BlockScan) (l : List Char) : BlockScan :=
  match st.cur with
  | some b =>
    if isBlockBodyLine l then ⟨some (l :: b), st.found⟩
    else ⟨if l == marker then some [] else none, b.reverse :: st.found⟩
  | none => if l == marker then ⟨some [], st.found⟩ else st

/-- The bodies of all rst blocks opened by the directive line `marker`, in
file order: each body's non-blank lines, dedented by the block indent. -/
def rstBlocks (marker : String) : List (List (List Char)) :=
  let st := (rstLines.map String.data).foldl (blockStep marker.data) ⟨none, []⟩
  let all := match st.cur with
    | some b => b.reverse :: st.found
    | none => st.found
  all.reverse.map (fun b => (b.filter (fun l => !(isBlankL l))).map (List.drop 4))

/-- The code blocks of the rst tutorial (bodies of `.. code:: ipython3`). -/
def rstCodeFragments : List (List (List Char)) := rstBlocks ".. code:: ipython3"

/-- The captured output blocks of the rst tutorial (bodies of `.. parsed-literal::`). -/
def rstParsedLiterals : List (List (List Char)) := rstBlocks ".. parsed-literal::"

/-- The code cells of the notebook, each as its list of source lines. -/
def nbCodeFragments : List (List (List Char)) :=
  (nbCells.filter (fun c => c.cellType == "code")).map (fun c => linesOf c.source)

/-- Every code fragment of the slice: the rst code blocks followed by the
notebook code cells. -/
def allCodeFragments : List (List (List Char)) := rstCodeFragments ++ nbCodeFragments

/-! ## Python-line analysis: definitions and imports -/

/-- Does the line (after its indentation) start a Python class definition? -/
def isClassLine (l : List Char) : Bool := ("class ".data).isPrefixOf (stripL l)

/-- Does the line (after its indentation) start a Python function definition? -/
def isDefLine (l : List Char) : Bool := ("def ".data).isPrefixOf (stripL l)

/-- The name introduced by a `class NAME(BASE):` line. -/
def className (l : List Char) : List Char :=
  ((stripL l).drop 6).takeWhile (fun c => c != '(' && c != ':')

/-- The base named by a `class NAME(BASE):` line. -/
def classBase (l : List Char) : List Char :=
  (((stripL l).dropWhile (· != '(')).drop 1).takeWhile (· != ')')

/-- The indices of the class-definition lines of a code fragment. -/
def classSites (frag : List (List Char)) : List Nat :=
  (List.range frag.length).filter (fun i => isClassLine (frag.getD i []))

/-- The body of the class defined at line `i` of the fragment: the following
lines more indented than the class line, without blank lines. -/
def classBodyAt (frag : List (List Char)) (i : Nat) : List (List Char) :=
  let ind := indentOf (frag.getD i [])
  ((frag.drop (i + 1)).takeWhile
      (fun l => isBlankL l || indentOf l > ind)).filter (fun l => !(isBlankL l))

/-- Is the class body a bare docstring (a single triple-quoted line)? -/
def isDocstringOnlyBody (b : List (List Char)) : Bool :=
  match b with
  | [d] =>
    ("\"\"\"".data).isPrefixOf (stripL d) && ("\"\"\"".data).isSuffixOf (trimL d)
  | _ => false

/-- Everything after the first occurrence of `pat` in `l` (or `[]`). -/
def afterSub (pat : List Char) : List Char → List Char
  | [] => []
  | c :: t => if pat.isPrefixOf (c :: t) then (c :: t).drop pat.length else afterSub pat t

/-- The `from M import ...` lines of a fragment, stripped of indentation. -/
def fromImportLines (frag : List (List Char)) : List (List Char) :=
  (frag.map stripL).filter (fun l => ("from ".data).isPrefixOf l)

/-- The bare `import M ...` lines of a fragment, stripped of indentation. -/
def plainImportLines (frag : List (List Char)) : List (List Char) :=
  (frag.map stripL).filter (fun l => ("import ".data).isPrefixOf l)

/-- The module named by an import line (`from M import ...` or `import M ...`). -/
def importModule (l : List Char) : List Char :=
  if ("from ".data).isPrefixOf l then (l.drop 5).takeWhile (· != ' ')
  else (l.drop 7).takeWhile (· != ' ')

/-- The names brought in by a `from M import a, b` line. -/
def importedNames (l : List Char) : List (List Char) :=
  (splitChar (Char.ofNat 44) (afterSub " import ".data l)).map trimL

/-- The names a fragment imports from the `negmas` package. -/
def negmasImports (frag : List (List Char)) : List (List Char) :=
  (((fromImportLines frag).filter
      (fun l => ("negmas".data).isPrefixOf (importModule l))).map importedNames).flatten

/-- Does the fragment contain any import mentioning `negmas`? -/
def fragmentImportsNegmas (frag : List (List Char)) : Bool :=
  (fromImportLines frag ++ plainImportLines frag).any (fun l => hasSub "negmas".data l)

/-- All modules imported anywhere in the slice's code fragments. -/
def allImportModules : List (List Char) :=
  ((allCodeFragments.map
      (fun f => fromImportLines f ++ plainImportLines f)).flatten).map importModule

/-- All class-definition lines across the slice's code fragments. -/
def allClassLines : List (List Char) :=
  (allCodeFragments.map (fun f => f.filter isClassLine)).flatten

/-- All function-definition lines across the slice's code fragments. -/
def allDefLines : List (List Char) :=
  (allCodeFragments.map (fun f => f.filter isDefLine)).flatten
/-! ## Parsing the captured run-result dictionaries -/

/-- Parse one line of a pretty-printed Python dictionary, `'key': value,`
(possibly carrying the opening or closing brace of the dictionary), into the
key and the verbatim value text. -/
def parseDictLine (l : List Char) : Option (String × String) :=
  let l := stripL l
  let l := if l.head? == some (Char.ofNat 123) then l.drop 1 else l
  match l with
  | q :: rest =>
    if q == Char.ofNat 39 then
      let key := rest.takeWhile (· != Char.ofNat 39)
      let rest2 := stripL ((rest.dropWhile (· != Char.ofNat 39)).drop 2)
      let v :=
        if rest2.getLast? == some (Char.ofNat 44) then rest2.dropLast
        else if rest2.getLast? == some (Char.ofNat 125) then rest2.dropLast
        else rest2
      some (⟨key⟩, ⟨v⟩)
    else none
  | [] => none

/-- The captured run-result dictionaries of the rst tutorial: the
parsed-literal blocks whose first line opens a Python dictionary, each parsed
into a key/value association list. -/
def runDicts : List (List (String × String)) :=
  (rstParsedLiterals.filter
      (fun b => (b.headD []).head? == some (Char.ofNat 123))).map
    (fun b => b.filterMap parseDictLine)

/-- The value text stored under key `k` of a parsed dictionary. -/
def lookupD (d : List (String × String)) (k : String) : Option String :=
  (d.find? (fun p => p.1 == k)).map (·.2)

/-- The `n_steps=` argument appearing in a code fragment, when the fragment
passes exactly one. -/
def nStepsOf (frag : List (List Char)) : Option Nat :=
  match frag.filterMap
      (fun l =>
        if hasSub "n_steps=".data l then
          some ((afterSub "n_steps=".data l).takeWhile (·.isDigit))
        else none) with
  | [d] => parseNatL d
  | _ => none

/-- Does the dictionary's `relative_time` equal the exact rational
`(step + 1) / n`? Both fields are read from their captured value texts and
the rationals are compared by cross-multiplication of exact fractions. -/
def relativeTimeMatches (d : List (String × String)) (n : Nat) : Bool :=
  match lookupD d "relative_time", lookupD d "step" with
  | some rt, some st =>
    match parseDecimalFrac rt.data, parseNatL st.data with
    | some (a, b), some s => b != 0 && n != 0 && a * n == (s + 1) * b
    | _, _ => false
  | _, _ => false

/-- The terminal-state invariant of a captured run-result dictionary: the
agreement equals the standing offer and no failure flag is set. -/
def terminalInvariant (d : List (String × String)) : Bool :=
  lookupD d "agreement" == lookupD d "current_offer" &&
  (lookupD d "agreement").isSome &&
  lookupD d "broken" == some "False" &&
  lookupD d "timedout" == some "False" &&
  lookupD d "has_error" == some "False" &&
  lookupD d "running" == some "False" &&
  lookupD d "started" == some "True"

/-- Is the value text a quoted agent identifier `NAME-UUID` whose name part is
`nm` and whose suffix is a hyphenated hexadecimal UUID? -/
def isAgentId (nm : String) (v : String) : Bool :=
  let inner := (v.data.drop 1).dropLast
  ((nm.data ++ [Char.ofNat 45]).isPrefixOf inner) &&
  isUUID (inner.drop (nm.data.length + 1))
/-! ## Error-artifact scanning (claim C3) -/

/-- Does the text carry an error indicator: a traceback, an `Error` or
`Exception` mention, or the abstract-class instantiation exception message? -/
def errish (t : List Char) : Bool :=
  hasSub "Traceback".data t || hasSub "Error".data t || hasSub "Exception".data t ||
  ("Can\x27t instantiate".data).isPrefixOf t

/-- Is a notebook output error-like: an `error` output, a write to `stderr`,
or any of its texts carrying an error indicator? -/
def errorLikeOut (o : NbOutput) : Bool :=
  o.outputType == "error" || o.streamName == "stderr" ||
  errish o.streamText.data || errish o.dataHtml.data || errish o.dataPlain.data

/-- Every output object of the notebook, in cell order. -/
def nbAllOutputs : List NbOutput := (nbCells.map (·.outputs)).flatten

/-! ## The rst tutorial's directive structure (claims C4, C5) -/

/-- The directive line opening an rst code block. -/
def codeMarker : String := ".. code:: ipython3"

/-- The directive line opening an rst captured-output block. -/
def plMarker : String := ".. parsed-literal::"

/-- The directive lines of the rst tutorial (top-level lines starting `.. `). -/
def rstDirectiveLines : List (List Char) :=
  (rstLines.map String.data).filter (fun l => (".. ".data).isPrefixOf l)

/-- The image paths referenced by the rst tutorial's `.. image::` directives. -/
def rstImagePaths : List String :=
  (rstDirectiveLines.filterMap
    (fun l => if (".. image:: ".data).isPrefixOf l then some (⟨l.drop 11⟩ : String) else none))

/-- The targets of the rst tutorial's inline `:download:` directives. -/
def rstDownloadTargets : List String :=
  ((rstLines.map String.data).filter (fun l => hasSub ":download:".data l)).map
    (fun l => (⟨(afterSub "<".data l).takeWhile (· != '>')⟩ : String))

/-- Resolve a path referenced by the rst tutorial against its directory. -/
def resolveDocPath (p : String) : String := "docs/tutorials/" ++ p

/-- All external resources referenced by the rst tutorial's image and
download directives, resolved to repository paths. -/
def rstReferencedResources : List String :=
  (rstImagePaths ++ rstDownloadTargets).map resolveDocPath

/-- Does every `.. parsed-literal::` directive of the rst tutorial follow an
`.. code:: ipython3` directive with only block-body lines (the code itself and
blanks) in between? The scan keeps the last top-level line seen. -/
def plAdjacency : Bool :=
  ((rstLines.map String.data).foldl
    (fun (st : List Char × Bool) l =>
      if isBlockBodyLine l then st
      else (l, st.2 && (l != plMarker.data || st.1 == codeMarker.data)))
    ([], true)).2

/-! ## Named run dictionaries and the claim C1 reading -/

/-- The first captured run-result dictionary (the seed-0 `SAOMechanism` run). -/
def mechanismRunDict : List (String × String) := runDicts.getD 0 []

/-- The second captured run-result dictionary (the seed-0 `SAOProtocol` run). -/
def protocolRunDict : List (String × String) := runDicts.getD 1 []

/-- Claim C1 as stated, in its per-fragment reading: every code fragment of
the slice carries an import mentioning the `negmas` package. -/
def c1AsStated : Prop :=
  ∀ f ∈ allCodeFragments, fragmentImportsNegmas f = true

/-- The lines of the whole slice (rst lines and notebook source lines). -/
def allSliceLines : List (List Char) :=
  (rstLines.map String.data) ++ (nbCells.map (fun c => linesOf c.source)).flatten

/-- The lines of the slice on which the name `nm` occurs. -/
def linesContaining (nm : String) : List (List Char) :=
  allSliceLines.filter (hasSub nm.data)
/-! ## The claims -/

set_option maxRecDepth 100000

/-- C1 (as stated, refuted): it is not the case that every code fragment of the
slice imports its constructs from the `negmas` package — the notebook's first
cell (display setup) is a code fragment of the slice whose imports mention
`pandas`, `numpy`, `matplotlib` and `IPython`, but never `negmas`. -/
theorem claim_C1_counterexample :
    linesOf nbCell0.source ∈ allCodeFragments ∧
    fragmentImportsNegmas (linesOf nbCell0.source) = false ∧
    ¬ c1AsStated := by
  have hm : linesOf nbCell0.source ∈ allCodeFragments := by decide
  have hf : fragmentImportsNegmas (linesOf nbCell0.source) = false := by decide
  refine ⟨hm, hf, fun h => ?_⟩
  have ht := h _ hm
  rw [hf] at ht
  exact Bool.false_ne_true ht

/-- C1 (amended): no executable system source is included in the repository
slice. The rst tutorial's code blocks contain no class or function definition;
across both tutorial files the only class-definition lines are the two
`MyFactoryManager` lines of the notebook (its third and fourth code cells), each
an empty-bodied (docstring-only) subclass whose base (`FactoryManager`,
resp. `DoNothingFactoryManager`) is imported from the external `negmas` package
in the same cell; no fragment defines a function; and every module imported
anywhere in the slice is an external package (`negmas` and its submodules, or a
standard display/utility package), so no mechanism implementation, agent base
class, scheduler, or protocol state machine is defined in the slice. -/
theorem claim_C1_amended :
    (rstCodeFragments.all (fun f => f.all (fun l => !isClassLine l && !isDefLine l)) = true) ∧
    allClassLines.map className = ["MyFactoryManager".data, "MyFactoryManager".data] ∧
    nbCodeFragments.map (fun f => (f.filter isClassLine).length) =
      [0, 0, 1, 1, 0, 0, 0, 0, 0, 0, 0, 0] ∧
    allDefLines = [] ∧
    classSites (linesOf nbCell3.source) = [2] ∧
    classSites (linesOf nbCell5.source) = [1] ∧
    isDocstringOnlyBody (classBodyAt (linesOf nbCell3.source) 2) = true ∧
    isDocstringOnlyBody (classBodyAt (linesOf nbCell5.source) 1) = true ∧
    classBase ((linesOf nbCell3.source).getD 2 []) = "FactoryManager".data ∧
    classBase ((linesOf nbCell5.source).getD 1 []) = "DoNothingFactoryManager".data ∧
    classBase ((linesOf nbCell3.source).getD 2 []) ∈ negmasImports (linesOf nbCell3.source) ∧
    classBase ((linesOf nbCell5.source).getD 1 []) ∈ negmasImports (linesOf nbCell5.source) ∧
    (allImportModules.all (fun m =>
        ("negmas".data).isPrefixOf m ||
        m ∈ ["random", "pprint", "yaml", "pandas", "numpy", "matplotlib",
              "matplotlib.ticker", "IPython.core.display"].map String.data) = true) := by
  decide

/-- C2: the slice consists of exactly two tutorial documents — a
reStructuredText notebook export (`.rst`) and a literal Jupyter notebook
(`.ipynb`) — and they narrate usage of the `negmas` negotiation library:
both import from `negmas`, the rst tutorial demonstrates negotiators, utility
functions, issues and the stacked-alternating-offers protocol, and the
notebook demonstrates agent tournaments in the supply-chain (SCM) world. -/
theorem claim_C2 :
    sliceDocs.length = 2 ∧
    sliceDocs.map (·.kind) = [DocKind.rstExport, DocKind.jupyterNotebook] ∧
    ((".rst".data).isSuffixOf (slicePaths.getD 0 "").data = true) ∧
    ((".ipynb".data).isSuffixOf (slicePaths.getD 1 "").data = true) ∧
    rstLines.getD 0 "" = "Running a Negotiation" ∧
    (rstCodeFragments.any fragmentImportsNegmas = true) ∧
    (nbCodeFragments.any fragmentImportsNegmas = true) ∧
    ((["SAOMechanism", "AspirationNegotiator", "MappingUtilityFunction",
        "Issue(name="].all (fun nm => rstLines.any (fun l => strHasSub l nm))) = true) ∧
    (lookupD mechanismRunDict "current_offer").isSome = true ∧
    ((["anac2019_collusion", "negmas.apps.scml", "tournament", "SCM world"].all
        (fun nm => nbCells.any (fun c => strHasSub c.source nm))) = true) := by
  decide

/-- C3: the only error-like artifact of the slice is the exception message
captured as the `stdout` stream output of the notebook cell that subclasses
the abstract `FactoryManager`, instantiates it inside `try`/`except`, and
prints the exception. Filtering every notebook output by the error-likeness
scan leaves exactly that cell's single output; no rst line, captured rst
output block, or notebook markdown cell carries an error indicator; and no
code line of the notebook raises an exception. -/
theorem claim_C3 :
    nbAllOutputs.filter errorLikeOut = nbCell3.outputs ∧
    nbCell3.outputs.map (fun o => o.outputType) = ["stream"] ∧
    nbCell3.outputs.map (fun o => o.streamName) = ["stdout"] ∧
    (nbCell3.outputs.all (fun o =>
        ("Can\x27t instantiate abstract class MyFactoryManager with abstract methods ".data).isPrefixOf
          o.streamText.data) = true) ∧
    strHasSub nbCell3.source "class MyFactoryManager(FactoryManager):" = true ∧
    strHasSub nbCell3.source "try:" = true ∧
    strHasSub nbCell3.source "except Exception as e:" = true ∧
    strHasSub nbCell3.source "print(e)" = true ∧
    strHasSub nbCell3.source "f = MyFactoryManager()" = true ∧
    (rstLines.all (fun l => !errish l.data) = true) ∧
    (rstParsedLiterals.all (fun b => b.all (fun l => !errish l)) = true) ∧
    ((nbCells.filter (fun c => c.cellType == "markdown")).all
        (fun c => !errish c.source.data) = true) ∧
    (nbCells.all (fun c =>
        (linesOf c.source).all (fun l => !(("raise".data).isPrefixOf (stripL l)))) = true) := by
  decide

/-- C4: the slice's observable interface is the tutorials' own structure — the
notebook is an nbformat-4 document of 29 cells, all of type `code` or
`markdown`; every rst directive line is a `code`, `parsed-literal`, or `image`
directive; and the four image targets and one download target resolve to paths
outside the slice's two files. -/
theorem claim_C4 :
    nbformatMajor = 4 ∧
    nbCells.length = 29 ∧
    (nbCells.all (fun c => c.cellType == "code" || c.cellType == "markdown") = true) ∧
    (rstDirectiveLines.all (fun l =>
        l == codeMarker.data || l == plMarker.data ||
        (".. image:: ".data).isPrefixOf l) = true) ∧
    rstImagePaths.length = 4 ∧
    rstDownloadTargets = ["notebooks/01.running_simple_negotiation.ipynb"] ∧
    rstReferencedResources.length = 5 ∧
    (rstReferencedResources.all (fun p => !(slicePaths.contains p)) = true) := by
  decide

/-- C5: every expected-output block of the slice is attached to the example
invocation that produced it — each of the five `parsed-literal` blocks of the
rst tutorial immediately follows an `ipython3` code block (only the code's own
indented lines and blanks intervene), and each of the seven notebook output
objects sits in the `outputs` array of a `code` cell. -/
theorem claim_C5 :
    plAdjacency = true ∧
    rstParsedLiterals.length = 5 ∧
    (nbCells.all (fun c => c.outputs.isEmpty || c.cellType == "code") = true) ∧
    nbAllOutputs.length = 7 := by
  decide

/-- C6: the entities the slice mentions are observed only through example code
and captured outputs: the slice's class-definition lines name only the example
subclass `MyFactoryManager` and it defines no function at all (so no type,
class, or schema is defined for sessions, issues, utility functions, contracts,
or factories), while the entities do appear in the run-result dictionary, the
`Issue`/utility-function example code, the tournament example, the log-folder
file listing, and the scores table output. -/
theorem claim_C6 :
    allClassLines.map className = ["MyFactoryManager".data, "MyFactoryManager".data] ∧
    allDefLines = [] ∧
    (lookupD mechanismRunDict "agreement").isSome = true ∧
    (rstLines.any (fun l => strHasSub l "Issue(name=") = true) ∧
    (rstLines.any (fun l => strHasSub l "MappingUtilityFunction") = true) ∧
    (nbCells.any (fun c => strHasSub c.source "GreedyFactoryManager") = true) ∧
    (nbCells.any (fun c => strHasSub c.source "all_contracts.csv") = true) ∧
    (nbCells.any (fun c => c.outputs.any (fun o => strHasSub o.dataHtml "score")) = true) := by
  decide

/-- C7: `SAOMechanism`, `AspirationNegotiator` and `UtilityFunction` each occur
in the slice, every slice line on which one of them occurs is neither a class
nor a function definition line (so none of them is defined in the slice), and
each occurs on a `from negmas ... import` line of the rst tutorial. -/
theorem claim_C7 :
    (["SAOMechanism", "AspirationNegotiator", "UtilityFunction"].all (fun nm =>
        !(linesContaining nm).isEmpty &&
        (linesContaining nm).all (fun l => !isClassLine l && !isDefLine l) &&
        (rstLines.any (fun l =>
            ("from negmas".data).isPrefixOf (stripL l.data) && hasSub nm.data l.data))) = true) := by
  decide

/-- C8: the rst tutorial's two seed-0 runs — one built with
`SAOMechanism(outcomes=10, n_steps=100)` and one with
`SAOProtocol(outcomes=10, n_steps=100)`, each adding five
`AspirationNegotiator`s after `random.seed(0)` — print dictionaries with the
same keys that agree on every key except `current_proposer` (both of the form
`a2-<UUID>`, differing in the random UUID suffix) and the wall-clock `time`;
in particular they agree on the values the claim names, consistent with the
tutorial's remark that `Protocol` is an alias of `Mechanism`. -/
theorem claim_C8 :
    ((rstCodeFragments.getD 0 []).any
        (hasSub "SAOMechanism(outcomes=10, n_steps=100)".data) = true) ∧
    ((rstCodeFragments.getD 1 []).any
        (hasSub "SAOProtocol(outcomes=10, n_steps=100)".data) = true) ∧
    ((rstCodeFragments.getD 0 []).any (hasSub "random.seed(0)".data) = true) ∧
    ((rstCodeFragments.getD 1 []).any (hasSub "random.seed(0)".data) = true) ∧
    ((rstCodeFragments.getD 0 []).any
        (hasSub "AspirationNegotiator(name=f\x27a\x7b_\x7d\x27) for _ in range(5)".data) = true) ∧
    ((rstCodeFragments.getD 1 []).any
        (hasSub "AspirationNegotiator(name=f\x27a\x7b_\x7d\x27) for _ in range(5)".data) = true) ∧
    mechanismRunDict.map (fun p => p.1) = protocolRunDict.map (fun p => p.1) ∧
    ((mechanismRunDict.map (fun p => p.1)).all (fun k =>
        k == "current_proposer" || k == "time" ||
        lookupD mechanismRunDict k == lookupD protocolRunDict k) = true) ∧
    lookupD mechanismRunDict "agreement" = some "(8,)" ∧
    lookupD mechanismRunDict "broken" = some "False" ∧
    lookupD mechanismRunDict "current_offer" = some "(8,)" ∧
    lookupD mechanismRunDict "n_negotiators" = some "5" ∧
    lookupD mechanismRunDict "step" = some "14" ∧
    lookupD mechanismRunDict "relative_time" = some "0.15" ∧
    lookupD mechanismRunDict "timedout" = some "False" ∧
    lookupD mechanismRunDict "has_error" = some "False" ∧
    ((lookupD mechanismRunDict "current_proposer").map (isAgentId "a2")) = some true ∧
    ((lookupD protocolRunDict "current_proposer").map (isAgentId "a2")) = some true ∧
    lookupD mechanismRunDict "current_proposer" ≠ lookupD protocolRunDict "current_proposer" ∧
    lookupD mechanismRunDict "time" ≠ lookupD protocolRunDict "time" ∧
    (rstLines.any (fun l => strHasSub l "``Protocol`` is an alias of") = true) := by
  decide

/-- C9: in the three captured run-result dictionaries the claim cites, the
captured `relative_time` equals the exact rational `(step + 1) / n_steps` of
the session that produced it — `15/100 = 0.15` for the `n_steps=100` session
ending at step 14, `18/20 = 0.9` for the `n_steps=20` session ending at step
17, and `45/50 = 0.9` for the `n_steps=50` session ending at step 44 — where
`n_steps` is read from the code block that built each session and the fields
from its captured dictionary, and the cited decimal captures denote exactly
those rationals. -/
theorem claim_C9 :
    (nStepsOf (rstCodeFragments.getD 0 []) = some 100 ∧
     nStepsOf (rstCodeFragments.getD 2 []) = some 20 ∧
     nStepsOf (rstCodeFragments.getD 5 []) = some 50 ∧
     lookupD (runDicts.getD 0 []) "step" = some "14" ∧
     lookupD (runDicts.getD 2 []) "step" = some "17" ∧
     lookupD (runDicts.getD 3 []) "step" = some "44" ∧
     lookupD (runDicts.getD 0 []) "relative_time" = some "0.15" ∧
     lookupD (runDicts.getD 2 []) "relative_time" = some "0.9" ∧
     lookupD (runDicts.getD 3 []) "relative_time" = some "0.9" ∧
     relativeTimeMatches (runDicts.getD 0 []) 100 = true ∧
     relativeTimeMatches (runDicts.getD 2 []) 20 = true ∧
     relativeTimeMatches (runDicts.getD 3 []) 50 = true) ∧
    ((0.15 : ℚ) = (14 + 1) / 100 ∧
     (0.9 : ℚ) = (17 + 1) / 20 ∧
     (0.9 : ℚ) = (44 + 1) / 50) := by
  refine ⟨by decide, by norm_num, by norm_num, by norm_num⟩

/-- C10: all four captured run-result dictionaries of the rst tutorial end in
the accepting terminal state — `agreement` equals `current_offer`, an
agreement is present, and `broken`, `timedout`, `has_error`, `running` are all
`False` while `started` is `True`. -/
theorem claim_C10 :
    runDicts.length = 4 ∧ runDicts.all terminalInvariant = true := by
  decide
